import Mathlib

/-!
# Verification of the transform-decorator shape layer

A shallow embedding, over exact rationals, of `DecoratedShape` and
`RotatedTranslatedShape` from the Jolt physics collision-shape library
(`Jolt/Physics/Collision/Shape/DecoratedShape.cpp` and
`Jolt/Physics/Collision/Shape/RotatedTranslatedShape.cpp`), together with
theorems about construction, scale validity, surface normals, ray casts,
binary persistence and the collision-dispatch bridges.

Machine floating point is modelled by `ℚ`; inner shapes are modelled as a
record of the query functions the decorator delegates to.
-/

namespace JoltSpec

/-- A 3-component vector (`Vec3`). -/
structure Vec3 where
  x : ℚ
  y : ℚ
  z : ℚ
deriving DecidableEq, Repr

/-- Componentwise vector addition (`Vec3::operator+`). -/
def Vec3.add (a b : Vec3) : Vec3 := ⟨a.x + b.x, a.y + b.y, a.z + b.z⟩

instance : Add Vec3 := ⟨Vec3.add⟩

/-- The zero vector (`Vec3::sZero`). -/
def Vec3.zero : Vec3 := ⟨0, 0, 0⟩

/-- A quaternion (`Quat`), stored as `x, y, z` imaginary parts and `w` real part. -/
structure Quat where
  x : ℚ
  y : ℚ
  z : ℚ
  w : ℚ
deriving DecidableEq, Repr

/-- The identity quaternion (`Quat::sIdentity`). -/
def Quat.sIdentity : Quat := ⟨0, 0, 0, 1⟩

/-- Quaternion conjugation (`Quat::Conjugated`): negate the imaginary parts. -/
def Quat.Conjugated (q : Quat) : Quat := ⟨-q.x, -q.y, -q.z, q.w⟩

/-- Hamilton product of two quaternions (`Quat::operator*`). -/
def Quat.mul (p q : Quat) : Quat :=
  ⟨p.w * q.x + p.x * q.w + p.y * q.z - p.z * q.y,
   p.w * q.y - p.x * q.z + p.y * q.w + p.z * q.x,
   p.w * q.z + p.x * q.y - p.y * q.x + p.z * q.w,
   p.w * q.w - p.x * q.x - p.y * q.y - p.z * q.z⟩

/-- Squared norm of a quaternion (`Quat::LengthSq`). -/
def Quat.normSq (q : Quat) : ℚ := q.x * q.x + q.y * q.y + q.z * q.z + q.w * q.w

/-- Squared distance between two quaternions, as used by `Quat::IsClose`
(which compares `(inRHS - *this).LengthSq()` against a tolerance). -/
def Quat.distSq (p q : Quat) : ℚ :=
  (p.x - q.x) * (p.x - q.x) + (p.y - q.y) * (p.y - q.y) +
  (p.z - q.z) * (p.z - q.z) + (p.w - q.w) * (p.w - q.w)

/-- The default tolerance of `Quat::IsClose` (`1.0e-12f`). -/
def Quat.isCloseTolerance : ℚ := 1 / 1000000000000

/-- `Quat::IsClose` with its default tolerance: squared distance at most `1.0e-12`. -/
def Quat.IsClose (p q : Quat) : Bool := decide (Quat.distSq p q ≤ Quat.isCloseTolerance)

/-- Rotation of a vector by a quaternion (`Quat::operator*(Vec3)`): the
vector part of `q * (v, 0) * q.Conjugated()`. -/
def Quat.rotateVec (q : Quat) (v : Vec3) : Vec3 :=
  let r := Quat.mul (Quat.mul q ⟨v.x, v.y, v.z, 0⟩) q.Conjugated
  ⟨r.x, r.y, r.z⟩

/-- A 3×3 matrix, row major; models the rotation block of `Mat44`. -/
structure Mat3 where
  m00 : ℚ
  m01 : ℚ
  m02 : ℚ
  m10 : ℚ
  m11 : ℚ
  m12 : ℚ
  m20 : ℚ
  m21 : ℚ
  m22 : ℚ
deriving DecidableEq, Repr

/-- Matrix-vector product (`Mat44::operator*(Vec3)` restricted to the 3×3 block). -/
def Mat3.mulVec (m : Mat3) (v : Vec3) : Vec3 :=
  ⟨m.m00 * v.x + m.m01 * v.y + m.m02 * v.z,
   m.m10 * v.x + m.m11 * v.y + m.m12 * v.z,
   m.m20 * v.x + m.m21 * v.y + m.m22 * v.z⟩

/-- Product of the transposed matrix with a vector (`Mat44::Multiply3x3Transposed`). -/
def Mat3.Multiply3x3Transposed (m : Mat3) (v : Vec3) : Vec3 :=
  ⟨m.m00 * v.x + m.m10 * v.y + m.m20 * v.z,
   m.m01 * v.x + m.m11 * v.y + m.m21 * v.z,
   m.m02 * v.x + m.m12 * v.y + m.m22 * v.z⟩

/-- Matrix-matrix product of the 3×3 blocks (`Mat44::Multiply3x3`). -/
def Mat3.mul (a b : Mat3) : Mat3 :=
  ⟨a.m00 * b.m00 + a.m01 * b.m10 + a.m02 * b.m20,
   a.m00 * b.m01 + a.m01 * b.m11 + a.m02 * b.m21,
   a.m00 * b.m02 + a.m01 * b.m12 + a.m02 * b.m22,
   a.m10 * b.m00 + a.m11 * b.m10 + a.m12 * b.m20,
   a.m10 * b.m01 + a.m11 * b.m11 + a.m12 * b.m21,
   a.m10 * b.m02 + a.m11 * b.m12 + a.m12 * b.m22,
   a.m20 * b.m00 + a.m21 * b.m10 + a.m22 * b.m20,
   a.m20 * b.m01 + a.m21 * b.m11 + a.m22 * b.m21,
   a.m20 * b.m02 + a.m21 * b.m12 + a.m22 * b.m22⟩

/-- Transpose of the 3×3 block (`Mat44::Transposed3x3`). -/
def Mat3.transposed (m : Mat3) : Mat3 :=
  ⟨m.m00, m.m10, m.m20, m.m01, m.m11, m.m21, m.m02, m.m12, m.m22⟩

/-- The rotation matrix of a unit quaternion (`Mat44::sRotation(QuatArg)`),
by the standard quaternion-to-matrix formula. -/
def Mat3.sRotation (q : Quat) : Mat3 :=
  ⟨1 - 2 * (q.y * q.y + q.z * q.z), 2 * (q.x * q.y - q.w * q.z), 2 * (q.x * q.z + q.w * q.y),
   2 * (q.x * q.y + q.w * q.z), 1 - 2 * (q.x * q.x + q.z * q.z), 2 * (q.y * q.z - q.w * q.x),
   2 * (q.x * q.z - q.w * q.y), 2 * (q.y * q.z + q.w * q.x), 1 - 2 * (q.x * q.x + q.y * q.y)⟩

/-- An affine center-of-mass transform: the rotation block and translation
column of a `Mat44` used as a rigid transform. -/
structure Mat44A where
  rot : Mat3
  trans : Vec3
deriving DecidableEq, Repr

/-- Composition of affine transforms (`Mat44::operator*(Mat44)`). -/
def Mat44A.mul (a b : Mat44A) : Mat44A :=
  ⟨Mat3.mul a.rot b.rot, a.rot.mulVec b.trans + a.trans⟩

/-- The affine transform `Mat44::sRotation(q)`: rotation block, zero translation. -/
def Mat44A.sRotation (q : Quat) : Mat44A := ⟨Mat3.sRotation q, Vec3.zero⟩

/-- Mass properties of a shape (`MassProperties`): mass and 3×3 inertia tensor. -/
structure MassProperties where
  mMass : ℚ
  mInertia : Mat3
deriving DecidableEq, Repr

/-- Modelled from the spec: `MassProperties::Rotate` (source not included here) —
"take inner's mass properties, rotate inertia tensor by `rotation`": the inertia
tensor is conjugated by the rotation matrix, the mass is unchanged. -/
def MassProperties.Rotate (p : MassProperties) (m : Mat3) : MassProperties :=
  ⟨p.mMass, Mat3.mul (Mat3.mul m p.mInertia) m.transposed⟩

/-- A ray (`RayCast`): origin and direction. -/
structure RayCast where
  mOrigin : Vec3
  mDirection : Vec3
deriving DecidableEq, Repr

/-- Modelled from the spec: `RayCast::Transformed` (source not included here) —
the ray with origin taken through the full affine transform and direction
through its rotation block. -/
def RayCast.Transformed (r : RayCast) (t : Mat44A) : RayCast :=
  ⟨t.rot.mulVec r.mOrigin + t.trans, t.rot.mulVec r.mDirection⟩

/-- A single ray-cast hit (`RayCastResult`): hit fraction and sub-shape id. -/
structure RayCastResult where
  mFraction : ℚ
  mSubShapeID : ℕ
deriving DecidableEq, Repr

/-- The inner shape, modelled as the record of query functions the decorator
delegates to through the abstract `Shape` interface. -/
structure InnerShape where
  getCenterOfMass : Vec3
  massProperties : MassProperties
  isValidScale : Vec3 → Bool
  getSurfaceNormal : ℕ → Vec3 → Vec3
  castRay : RayCast → ℕ → RayCastResult → Bool × RayCastResult
  castRayCollect : RayCast → ℕ → ℕ → List RayCastResult

/-- Modelled from the spec: the `ScaleHelpers` functions (source not included
here) consumed by the decorator — "isUniform(scale), canBeRotated(rotation,
scale), rotate(rotation, scale)" — kept abstract as a record of functions. -/
structure ScaleHelpers where
  IsUniformScale : Vec3 → Bool
  CanScaleBeRotated : Quat → Vec3 → Bool
  RotateScale : Quat → Vec3 → Vec3

/-- `DecoratedShapeSettings`: an optional buildable inner-settings object
(`mInnerShape`, modelled as a thunk producing a shape or an error string) and
an optional direct inner-shape reference (`mInnerShapePtr`). -/
structure DecoratedShapeSettings where
  mInnerShape : Option (Unit → Except String InnerShape)
  mInnerShapePtr : Option InnerShape

/-- The `DecoratedShape` constructor. Returns the resolved inner shape or the
error written to `outResult`, paired with a flag recording whether
`mInnerShape->Create()` was invoked. Mirrors the source: if both sources are
null, set the error "Inner shape is null!"; else if the direct pointer is
present, use it; else build from settings and on failure copy that result
verbatim (`outResult = child_result`). -/
def DecoratedShape.construct (inSettings : DecoratedShapeSettings) :
    Except String InnerShape × Bool :=
  match inSettings.mInnerShapePtr, inSettings.mInnerShape with
  | none, none => (Except.error "Inner shape is null!", false)
  | some p, _ => (Except.ok p, false)
  | none, some create =>
    match create () with
    | Except.error e => (Except.error e, true)
    | Except.ok s => (Except.ok s, true)

/-- `RotatedTranslatedShapeSettings`: the decorated-shape settings plus a
position and a rotation. -/
structure RotatedTranslatedShapeSettings where
  mInnerShape : Option (Unit → Except String InnerShape)
  mInnerShapePtr : Option InnerShape
  mPosition : Vec3
  mRotation : Quat

/-- A constructed `RotatedTranslatedShape`: the owned inner shape, the derived
center of mass, the rotation, and the derived identity-rotation flag. -/
structure RotatedTranslatedShape where
  mInnerShape : InnerShape
  mCenterOfMass : Vec3
  mRotation : Quat
  mIsRotationIdentity : Bool

/-- The `RotatedTranslatedShape` constructor: run the `DecoratedShape`
constructor; on error return it; otherwise store
`mCenterOfMass = inSettings.mPosition + inSettings.mRotation * mInnerShape->GetCenterOfMass()`,
`mRotation = inSettings.mRotation`, and
`mIsRotationIdentity = mRotation.IsClose(Quat::sIdentity())`. -/
def RotatedTranslatedShape.construct (inSettings : RotatedTranslatedShapeSettings) :
    Except String RotatedTranslatedShape :=
  match (DecoratedShape.construct ⟨inSettings.mInnerShape, inSettings.mInnerShapePtr⟩).fst with
  | Except.error e => Except.error e
  | Except.ok inner =>
    Except.ok
      { mInnerShape := inner
        mCenterOfMass := inSettings.mPosition + Quat.rotateVec inSettings.mRotation inner.getCenterOfMass
        mRotation := inSettings.mRotation
        mIsRotationIdentity := Quat.IsClose inSettings.mRotation Quat.sIdentity }

/-- `RotatedTranslatedShape::GetMassProperties`: take the inner shape's mass
properties and rotate the inertia by `Mat44::sRotation(mRotation)`. -/
def RotatedTranslatedShape.GetMassProperties (sh : RotatedTranslatedShape) : MassProperties :=
  (sh.mInnerShape.massProperties).Rotate (Mat3.sRotation sh.mRotation)

/-- Modelled from the spec: `RotatedTranslatedShape::TransformScale` (declared
in the header, which is not included here) — the scale-transform rule: "passed
to the inner shape either unchanged (if rotation is identity or scale is
uniform) or re-expressed via the rotation (rotated scale)". -/
def RotatedTranslatedShape.TransformScale (H : ScaleHelpers) (sh : RotatedTranslatedShape)
    (inScale : Vec3) : Vec3 :=
  if sh.mIsRotationIdentity || H.IsUniformScale inScale then inScale
  else H.RotateScale sh.mRotation inScale

/-- `RotatedTranslatedShape::IsValidScale`: base-class validity first, then the
identity/uniform fast path delegating the unrotated scale, then the
rotatable-scale check, then delegation of the rotated scale. `baseValid`
stands for `DecoratedShape::IsValidScale` (inherited, external). -/
def RotatedTranslatedShape.IsValidScale (H : ScaleHelpers) (baseValid : Vec3 → Bool)
    (sh : RotatedTranslatedShape) (inScale : Vec3) : Bool :=
  if !baseValid inScale then false
  else if sh.mIsRotationIdentity || H.IsUniformScale inScale then
    sh.mInnerShape.isValidScale inScale
  else if !H.CanScaleBeRotated sh.mRotation inScale then false
  else sh.mInnerShape.isValidScale (H.RotateScale sh.mRotation inScale)

/-- `RotatedTranslatedShape::GetSurfaceNormal`: build
`transform = Mat44::sRotation(mRotation.Conjugated())`, delegate with
`transform * inLocalSurfacePosition`, and return
`transform.Multiply3x3Transposed(normal)`. -/
def RotatedTranslatedShape.GetSurfaceNormal (sh : RotatedTranslatedShape)
    (inSubShapeID : ℕ) (inLocalSurfacePosition : Vec3) : Vec3 :=
  let transform := Mat3.sRotation sh.mRotation.Conjugated
  let normal := sh.mInnerShape.getSurfaceNormal inSubShapeID (transform.mulVec inLocalSurfacePosition)
  transform.Multiply3x3Transposed normal

/-- `RotatedTranslatedShape::CastRay` (single-hit): transform the ray by
`Mat44::sRotation(mRotation.Conjugated())` and delegate to the inner shape. -/
def RotatedTranslatedShape.CastRay (sh : RotatedTranslatedShape) (inRay : RayCast)
    (inSubShapeIDCreator : ℕ) (ioHit : RayCastResult) : Bool × RayCastResult :=
  let transform := Mat44A.sRotation sh.mRotation.Conjugated
  let ray := inRay.Transformed transform
  sh.mInnerShape.castRay ray inSubShapeIDCreator ioHit

/-- `RotatedTranslatedShape::CastRay` (collector form): transform the ray by
`Mat44::sRotation(mRotation.Conjugated())` and delegate to the inner shape.
The ray-cast settings and the sub-shape id creator are opaque pass-through
arguments; the collector's received hits are the returned list. -/
def RotatedTranslatedShape.CastRayCollect (sh : RotatedTranslatedShape) (inRay : RayCast)
    (inRayCastSettings : ℕ) (inSubShapeIDCreator : ℕ) : List RayCastResult :=
  let transform := Mat44A.sRotation sh.mRotation.Conjugated
  let ray := inRay.Transformed transform
  sh.mInnerShape.castRayCollect ray inRayCastSettings inSubShapeIDCreator

/-- One element of a binary stream: a numeric component or the base
decorator's embedded sub-shape reference token. -/
inductive StreamElem where
  | num : ℚ → StreamElem
  | ref : ℕ → StreamElem
deriving DecidableEq, Repr

/-- Modelled from the spec: `DecoratedShape::SaveBinaryState` (inherited from
the base, source not included here) — "the base decorator's one embedded
sub-shape reference token". -/
def DecoratedShape.SaveBinaryState : List StreamElem := [StreamElem.ref 0]

/-- Modelled from the spec: `DecoratedShape::RestoreBinaryState` (inherited
from the base, source not included here) — consumes the base decorator's one
embedded sub-shape reference token from the stream. -/
def DecoratedShape.RestoreBinaryState (stream : List StreamElem) : Option (List StreamElem) :=
  match stream with
  | StreamElem.ref _ :: rest => some rest
  | _ => none

/-- `RotatedTranslatedShape::SaveBinaryState`: write the base decorator's
state, then `mCenterOfMass` (3 components), then `mRotation` (4 components). -/
def RotatedTranslatedShape.SaveBinaryState (sh : RotatedTranslatedShape) : List StreamElem :=
  DecoratedShape.SaveBinaryState ++
  [StreamElem.num sh.mCenterOfMass.x, StreamElem.num sh.mCenterOfMass.y,
   StreamElem.num sh.mCenterOfMass.z] ++
  [StreamElem.num sh.mRotation.x, StreamElem.num sh.mRotation.y,
   StreamElem.num sh.mRotation.z, StreamElem.num sh.mRotation.w]

/-- `RotatedTranslatedShape::RestoreBinaryState`: restore the base decorator's
state, read `mCenterOfMass` (3 components) then `mRotation` (4 components) in
the same order as saved, and recompute
`mIsRotationIdentity = mRotation.IsClose(Quat::sIdentity())`. Returns the
updated shape and the unread remainder of the stream, or `none` when the
stream is malformed. -/
def RotatedTranslatedShape.RestoreBinaryState (sh : RotatedTranslatedShape)
    (stream : List StreamElem) : Option (RotatedTranslatedShape × List StreamElem) :=
  match DecoratedShape.RestoreBinaryState stream with
  | none => none
  | some rest =>
    match rest with
    | StreamElem.num cx :: StreamElem.num cy :: StreamElem.num cz ::
      StreamElem.num qx :: StreamElem.num qy :: StreamElem.num qz ::
      StreamElem.num qw :: rest2 =>
      some ({ sh with
                mCenterOfMass := ⟨cx, cy, cz⟩
                mRotation := ⟨qx, qy, qz, qw⟩
                mIsRotationIdentity := Quat.IsClose ⟨qx, qy, qz, qw⟩ Quat.sIdentity },
            rest2)
    | _ => none

/-- `RotatedTranslatedShape::sCollideRotatedTranslatedVsShape`: the collision
bridge for the decorator in the first operand position. The generic
dispatcher `CollisionDispatch::sCollideShapeVsShape` is abstracted as the
function argument `sCollideShapeVsShape`; the collide settings and the
collector are opaque pass-through arguments. -/
def RotatedTranslatedShape.sCollideRotatedTranslatedVsShape {Shape2 Result : Type}
    (H : ScaleHelpers)
    (sCollideShapeVsShape :
      InnerShape → Shape2 → Vec3 → Vec3 → Mat44A → Mat44A → ℕ → ℕ → ℕ → ℕ → Result)
    (inShape1 : RotatedTranslatedShape) (inShape2 : Shape2)
    (inScale1 inScale2 : Vec3)
    (inCenterOfMassTransform1 inCenterOfMassTransform2 : Mat44A)
    (inSubShapeIDCreator1 inSubShapeIDCreator2 : ℕ)
    (inCollideShapeSettings ioCollector : ℕ) : Result :=
  let transform1 := inCenterOfMassTransform1.mul (Mat44A.sRotation inShape1.mRotation)
  sCollideShapeVsShape inShape1.mInnerShape inShape2
    (inShape1.TransformScale H inScale1) inScale2
    transform1 inCenterOfMassTransform2
    inSubShapeIDCreator1 inSubShapeIDCreator2 inCollideShapeSettings ioCollector

/-- `RotatedTranslatedShape::sCollideShapeVsRotatedTranslated`: the collision
bridge for the decorator in the second operand position. -/
def RotatedTranslatedShape.sCollideShapeVsRotatedTranslated {Shape1 Result : Type}
    (H : ScaleHelpers)
    (sCollideShapeVsShape :
      Shape1 → InnerShape → Vec3 → Vec3 → Mat44A → Mat44A → ℕ → ℕ → ℕ → ℕ → Result)
    (inShape1 : Shape1) (inShape2 : RotatedTranslatedShape)
    (inScale1 inScale2 : Vec3)
    (inCenterOfMassTransform1 inCenterOfMassTransform2 : Mat44A)
    (inSubShapeIDCreator1 inSubShapeIDCreator2 : ℕ)
    (inCollideShapeSettings ioCollector : ℕ) : Result :=
  let transform2 := inCenterOfMassTransform2.mul (Mat44A.sRotation inShape2.mRotation)
  sCollideShapeVsShape inShape1 inShape2.mInnerShape
    inScale1 (inShape2.TransformScale H inScale2)
    inCenterOfMassTransform1 transform2
    inSubShapeIDCreator1 inSubShapeIDCreator2 inCollideShapeSettings ioCollector

/-- A shape cast (`ShapeCast`): the moving shape, its scale, its
center-of-mass start transform, and the cast direction. The shape slot is a
type parameter so the cast can carry either the decorator or the substituted
inner shape. -/
structure ShapeCast (σ : Type) where
  mShape : σ
  mScale : Vec3
  mCenterOfMassStart : Mat44A
  mDirection : Vec3

/-- `RotatedTranslatedShape::sCastRotatedTranslatedShapeVsShape`: the
shape-cast bridge for the decorator as the moving shape. The assertion and
downcast of `inShapeCast.mShape` to `RotatedTranslatedShape` are reflected in
the cast's shape slot being typed as the decorator. The generic dispatcher
`CollisionDispatch::sCastShapeVsShape` is abstracted as the function argument
`sCastShapeVsShape`; cast settings, shape filter and collector are opaque
pass-through arguments. -/
def RotatedTranslatedShape.sCastRotatedTranslatedShapeVsShape {Shape2 Result : Type}
    (H : ScaleHelpers)
    (sCastShapeVsShape :
      ShapeCast InnerShape → ℕ → Shape2 → Vec3 → ℕ → Mat44A → ℕ → ℕ → ℕ → Result)
    (inShapeCast : ShapeCast RotatedTranslatedShape)
    (inShapeCastSettings : ℕ) (inShape : Shape2) (inScale : Vec3)
    (inShapeFilter : ℕ) (inCenterOfMassTransform2 : Mat44A)
    (inSubShapeIDCreator1 inSubShapeIDCreator2 : ℕ)
    (ioCollector : ℕ) : Result :=
  let shape1 := inShapeCast.mShape
  let transform := inShapeCast.mCenterOfMassStart.mul (Mat44A.sRotation shape1.mRotation)
  let scale := shape1.TransformScale H inShapeCast.mScale
  sCastShapeVsShape ⟨shape1.mInnerShape, scale, transform, inShapeCast.mDirection⟩
    inShapeCastSettings inShape inScale inShapeFilter inCenterOfMassTransform2
    inSubShapeIDCreator1 inSubShapeIDCreator2 ioCollector

/-- For a unit quaternion, the rotation matrix acts on vectors exactly as the
quaternion sandwich product does. -/
theorem Mat3.sRotation_mulVec (q : Quat) (h : Quat.normSq q = 1) (v : Vec3) :
    (Mat3.sRotation q).mulVec v = q.rotateVec v := by
  have h' : q.x * q.x + q.y * q.y + q.z * q.z + q.w * q.w = 1 := h
  simp only [Mat3.sRotation, Mat3.mulVec, Quat.rotateVec, Quat.mul, Quat.Conjugated,
    Vec3.mk.injEq]
  refine ⟨?_, ?_, ?_⟩
  · linear_combination (-v.x) * h'
  · linear_combination (-v.y) * h'
  · linear_combination (-v.z) * h'

/-- The transposed rotation matrix of the conjugated quaternion acts on
vectors exactly as the rotation matrix of the quaternion itself (a formula
identity, no unit-length hypothesis needed). -/
theorem Mat3.sRotation_conjugated_transposed (q : Quat) (v : Vec3) :
    (Mat3.sRotation q.Conjugated).Multiply3x3Transposed v = (Mat3.sRotation q).mulVec v := by
  simp only [Mat3.sRotation, Mat3.mulVec, Mat3.Multiply3x3Transposed, Quat.Conjugated,
    Vec3.mk.injEq]
  refine ⟨?_, ?_, ?_⟩ <;> ring

/-- Conjugation preserves the squared norm of a quaternion. -/
theorem Quat.normSq_conjugated (q : Quat) : Quat.normSq q.Conjugated = Quat.normSq q := by
  simp only [Quat.normSq, Quat.Conjugated]
  ring

/-- A concrete unit quaternion used to instantiate theorems with hypotheses. -/
def sampleQuat : Quat := ⟨3 / 5, 0, 0, 4 / 5⟩

/-- A concrete inner shape used to instantiate theorems with hypotheses. -/
def sampleInner : InnerShape :=
  { getCenterOfMass := ⟨1, 2, 3⟩
    massProperties := ⟨2, ⟨5, 0, 0, 0, 7, 0, 0, 0, 9⟩⟩
    isValidScale := fun _ => true
    getSurfaceNormal := fun _ v => v
    castRay := fun r _ h => (true, { h with mFraction := r.mOrigin.x })
    castRayCollect := fun r s _ => [⟨r.mDirection.y, s⟩] }

/-- A concrete inner shape that rejects every scale vector. -/
def rejectingInner : InnerShape :=
  { sampleInner with isValidScale := fun _ => false }

/-- A concrete decorator instance with the sample unit rotation. -/
def sampleShape : RotatedTranslatedShape :=
  { mInnerShape := sampleInner
    mCenterOfMass := ⟨1, 1, 1⟩
    mRotation := sampleQuat
    mIsRotationIdentity := Quat.IsClose sampleQuat Quat.sIdentity }

/-- A concrete decorator instance whose rotation is exactly the identity. -/
def identityShape : RotatedTranslatedShape :=
  { mInnerShape := rejectingInner
    mCenterOfMass := Vec3.zero
    mRotation := Quat.sIdentity
    mIsRotationIdentity := Quat.IsClose Quat.sIdentity Quat.sIdentity }

/-- A concrete scale-helpers instantiation: uniform means all components
equal, every scale counts as rotatable, and rotation of a scale is the
quaternion sandwich action. -/
def sampleHelpers : ScaleHelpers :=
  { IsUniformScale := fun v => decide (v.x = v.y ∧ v.y = v.z)
    CanScaleBeRotated := fun _ _ => true
    RotateScale := fun q v => q.rotateVec v }

/-- The identity quaternion is close to itself. -/
theorem Quat.isClose_identity_self : Quat.IsClose Quat.sIdentity Quat.sIdentity = true := by
  simp [Quat.IsClose, Quat.distSq, Quat.isCloseTolerance, Quat.sIdentity]

/-- The sample quaternion is not close to the identity. -/
theorem sampleQuat_not_close_identity : Quat.IsClose sampleQuat Quat.sIdentity = false := by
  simp only [Quat.IsClose, Quat.distSq, Quat.isCloseTolerance, sampleQuat, Quat.sIdentity,
    decide_eq_false_iff_not]
  norm_num

/-- The shape produced by constructing from the sample inner shape with
position `(4, 5, 6)` and the sample rotation. -/
def sampleConstructed : RotatedTranslatedShape :=
  { mInnerShape := sampleInner
    mCenterOfMass := (⟨4, 5, 6⟩ : Vec3) + Quat.rotateVec sampleQuat sampleInner.getCenterOfMass
    mRotation := sampleQuat
    mIsRotationIdentity := Quat.IsClose sampleQuat Quat.sIdentity }

/-- The shape produced by restoring `sampleShape` from a stream holding a
reference token, a zero center of mass and the identity quaternion. -/
def restoredShape : RotatedTranslatedShape :=
  { sampleShape with
    mCenterOfMass := ⟨0, 0, 0⟩
    mRotation := ⟨0, 0, 0, 1⟩
    mIsRotationIdentity := Quat.IsClose ⟨0, 0, 0, 1⟩ Quat.sIdentity }

/-- Claim C2: decorator construction fails with the configuration error
"Inner shape is null!" exactly when both the direct inner-shape reference and
the inner settings object are null; with a direct reference it succeeds with
that reference; and when building the inner shape from settings fails, that
failure becomes this construction's result verbatim, while a successful build
becomes the inner shape. -/
theorem DecoratedShape.construct_error_spec :
    (∀ st : DecoratedShapeSettings, st.mInnerShapePtr = none → st.mInnerShape = none →
      (DecoratedShape.construct st).fst = Except.error "Inner shape is null!") ∧
    (∀ (st : DecoratedShapeSettings) (p : InnerShape), st.mInnerShapePtr = some p →
      (DecoratedShape.construct st).fst = Except.ok p) ∧
    (∀ (st : DecoratedShapeSettings) (create : Unit → Except String InnerShape) (e : String),
      st.mInnerShapePtr = none → st.mInnerShape = some create → create () = Except.error e →
      (DecoratedShape.construct st).fst = Except.error e) ∧
    (∀ (st : DecoratedShapeSettings) (create : Unit → Except String InnerShape) (s : InnerShape),
      st.mInnerShapePtr = none → st.mInnerShape = some create → create () = Except.ok s →
      (DecoratedShape.construct st).fst = Except.ok s) := by
  refine ⟨?_, ?_, ?_, ?_⟩
  · rintro ⟨is, ip⟩ h1 h2
    simp only at h1 h2
    subst h1; subst h2
    rfl
  · rintro ⟨is, ip⟩ p h1
    simp only at h1
    subst h1
    rfl
  · rintro ⟨is, ip⟩ create e h1 h2 h3
    simp only at h1 h2
    subst h1; subst h2
    simp only [DecoratedShape.construct, h3]
  · rintro ⟨is, ip⟩ create s h1 h2 h3
    simp only at h1 h2
    subst h1; subst h2
    simp only [DecoratedShape.construct, h3]

/-- Witness for C2: the four cases of `DecoratedShape.construct_error_spec`
evaluated at concrete settings. -/
theorem DecoratedShape.construct_error_spec_witness :
    (DecoratedShape.construct ⟨none, none⟩).fst = Except.error "Inner shape is null!" ∧
    (DecoratedShape.construct ⟨none, some sampleInner⟩).fst = Except.ok sampleInner ∧
    (DecoratedShape.construct ⟨some (fun _ => Except.error "inner build failed"), none⟩).fst =
      Except.error "inner build failed" ∧
    (DecoratedShape.construct ⟨some (fun _ => Except.ok sampleInner), none⟩).fst =
      Except.ok sampleInner :=
  ⟨DecoratedShape.construct_error_spec.1 ⟨none, none⟩ rfl rfl,
   DecoratedShape.construct_error_spec.2.1 ⟨none, some sampleInner⟩ sampleInner rfl,
   DecoratedShape.construct_error_spec.2.2.1 ⟨some (fun _ => Except.error "inner build failed"), none⟩
     (fun _ => Except.error "inner build failed") "inner build failed" rfl rfl rfl,
   DecoratedShape.construct_error_spec.2.2.2 ⟨some (fun _ => Except.ok sampleInner), none⟩
     (fun _ => Except.ok sampleInner) sampleInner rfl rfl rfl⟩

/-- Claim C10: when both a direct inner-shape pointer and an inner settings
object are provided, construction uses the direct pointer and never invokes
the settings object's build function (the invocation flag is `false`), for
every possible build function — so a build error can never surface. -/
theorem DecoratedShape.construct_prefers_direct_pointer :
    ∀ (p : InnerShape) (create : Unit → Except String InnerShape),
      DecoratedShape.construct ⟨some create, some p⟩ = (Except.ok p, false) := by
  intro p create
  rfl

/-- Claim C3: constructing a `RotatedTranslatedShape` from inner shape `S`,
unit rotation `R` and translation `T` stores
`mCenterOfMass = T + R · S.centerOfMass`, and `GetMassProperties` returns
`S`'s mass properties with the inertia tensor rotated by `R`'s rotation
matrix. -/
theorem RotatedTranslatedShape.construct_spec
    (S : InnerShape) (R : Quat) (T : Vec3) (_hR : Quat.normSq R = 1)
    (sh : RotatedTranslatedShape)
    (hc : RotatedTranslatedShape.construct ⟨none, some S, T, R⟩ = Except.ok sh) :
    sh.mCenterOfMass = T + R.rotateVec S.getCenterOfMass ∧
    sh.GetMassProperties = S.massProperties.Rotate (Mat3.sRotation R) := by
  have hc' : Except.ok
      ({ mInnerShape := S
         mCenterOfMass := T + Quat.rotateVec R S.getCenterOfMass
         mRotation := R
         mIsRotationIdentity := Quat.IsClose R Quat.sIdentity } : RotatedTranslatedShape) =
      Except.ok sh := hc
  injection hc' with h
  subst h
  exact ⟨rfl, rfl⟩

/-- Witness for C3: `RotatedTranslatedShape.construct_spec` at the sample
inner shape, sample unit rotation and position `(4, 5, 6)`. -/
theorem RotatedTranslatedShape.construct_spec_witness :
    Quat.normSq sampleQuat = 1 ∧
    sampleConstructed.mCenterOfMass =
      (⟨4, 5, 6⟩ : Vec3) + sampleQuat.rotateVec sampleInner.getCenterOfMass ∧
    sampleConstructed.GetMassProperties =
      sampleInner.massProperties.Rotate (Mat3.sRotation sampleQuat) :=
  ⟨by norm_num [Quat.normSq, sampleQuat],
   RotatedTranslatedShape.construct_spec sampleInner sampleQuat ⟨4, 5, 6⟩
     (by norm_num [Quat.normSq, sampleQuat]) sampleConstructed rfl⟩

/-- Claim C4: after the two assignment paths for the rotation field —
construction and binary-state restore — the `mIsRotationIdentity` flag equals
`mRotation.IsClose(Quat::sIdentity())`; and the persisted stream holds only
the base token, the center of mass and the rotation, never the flag. -/
theorem RotatedTranslatedShape.isRotationIdentity_invariant :
    (∀ (st : RotatedTranslatedShapeSettings) (sh : RotatedTranslatedShape),
      RotatedTranslatedShape.construct st = Except.ok sh →
      sh.mIsRotationIdentity = Quat.IsClose sh.mRotation Quat.sIdentity) ∧
    (∀ (sh : RotatedTranslatedShape) (stream : List StreamElem)
       (sh' : RotatedTranslatedShape) (rest : List StreamElem),
      sh.RestoreBinaryState stream = some (sh', rest) →
      sh'.mIsRotationIdentity = Quat.IsClose sh'.mRotation Quat.sIdentity) ∧
    (∀ sh : RotatedTranslatedShape, sh.SaveBinaryState =
      [StreamElem.ref 0,
       StreamElem.num sh.mCenterOfMass.x, StreamElem.num sh.mCenterOfMass.y,
       StreamElem.num sh.mCenterOfMass.z,
       StreamElem.num sh.mRotation.x, StreamElem.num sh.mRotation.y,
       StreamElem.num sh.mRotation.z, StreamElem.num sh.mRotation.w]) := by
  refine ⟨?_, ?_, ?_⟩
  · intro st sh hc
    unfold RotatedTranslatedShape.construct at hc
    split at hc
    · cases hc
    · injection hc with h
      subst h
      rfl
  · intro sh stream sh' rest h
    unfold RotatedTranslatedShape.RestoreBinaryState at h
    split at h
    · cases h
    · split at h
      · injection h with h1
        have h2 := congrArg Prod.fst h1
        simp only at h2
        subst h2
        rfl
      · cases h
  · intro sh
    rfl

/-- Witness for C4: the invariant evaluated after a concrete construction and
a concrete restore. -/
theorem RotatedTranslatedShape.isRotationIdentity_invariant_witness :
    sampleConstructed.mIsRotationIdentity =
      Quat.IsClose sampleConstructed.mRotation Quat.sIdentity ∧
    restoredShape.mIsRotationIdentity =
      Quat.IsClose restoredShape.mRotation Quat.sIdentity :=
  ⟨RotatedTranslatedShape.isRotationIdentity_invariant.1
      ⟨none, some sampleInner, ⟨4, 5, 6⟩, sampleQuat⟩ sampleConstructed rfl,
   RotatedTranslatedShape.isRotationIdentity_invariant.2.1 sampleShape
      [StreamElem.ref 0, StreamElem.num 0, StreamElem.num 0, StreamElem.num 0,
       StreamElem.num 0, StreamElem.num 0, StreamElem.num 0, StreamElem.num 1]
      restoredShape [] rfl⟩

/-- Claim C5: `SaveBinaryState` writes the base decorator's state, then the
center of mass (3 components), then the rotation (4 components), in that
fixed order; restoring that stream on a fresh instance sharing the same inner
shape reproduces `mCenterOfMass` and `mRotation` exactly, consumes exactly
the saved prefix, and recomputes `mIsRotationIdentity` instead of reading it
from the stream. -/
theorem RotatedTranslatedShape.save_restore_roundtrip :
    ∀ (sh fresh : RotatedTranslatedShape) (rest : List StreamElem),
      sh.SaveBinaryState =
        DecoratedShape.SaveBinaryState ++
        [StreamElem.num sh.mCenterOfMass.x, StreamElem.num sh.mCenterOfMass.y,
         StreamElem.num sh.mCenterOfMass.z,
         StreamElem.num sh.mRotation.x, StreamElem.num sh.mRotation.y,
         StreamElem.num sh.mRotation.z, StreamElem.num sh.mRotation.w] ∧
      fresh.RestoreBinaryState (sh.SaveBinaryState ++ rest) =
        some ({ fresh with
                  mCenterOfMass := sh.mCenterOfMass
                  mRotation := sh.mRotation
                  mIsRotationIdentity := Quat.IsClose sh.mRotation Quat.sIdentity },
              rest) := by
  intro sh fresh rest
  exact ⟨rfl, rfl⟩

/-- Claim C1, counterexample: the decision-table row "(identity rotation, any
scale) → valid" fails on the code. With an exactly-identity rotation and a
scale passing the base-class check, `IsValidScale` still delegates to the
inner shape, which here rejects the scale: the result is `false`, not
`true`. -/
theorem RotatedTranslatedShape.isValidScale_identity_not_unconditional :
    identityShape.mRotation = Quat.sIdentity ∧
    (fun _ : Vec3 => true) (⟨1, 2, 3⟩ : Vec3) = true ∧
    RotatedTranslatedShape.IsValidScale sampleHelpers (fun _ => true) identityShape
      ⟨1, 2, 3⟩ = false := by
  refine ⟨rfl, rfl, ?_⟩
  have hflag : identityShape.mIsRotationIdentity = true := Quat.isClose_identity_self
  simp [RotatedTranslatedShape.IsValidScale, hflag, identityShape, rejectingInner, sampleInner]

/-- Claim C1 (amended): for every scale vector passing the base-class
validity check — if the identity-rotation flag is set or the scale is
uniform, the scale is valid iff the inner shape accepts it unchanged; if the
flag is clear, the scale is non-uniform and not rotatable per `ScaleHelpers`,
it is invalid; if the flag is clear, the scale is non-uniform and rotatable,
it is valid iff the inner shape accepts the rotated scale. -/
theorem RotatedTranslatedShape.isValidScale_decision_table
    (H : ScaleHelpers) (baseValid : Vec3 → Bool) (sh : RotatedTranslatedShape)
    (scale : Vec3) (hbase : baseValid scale = true) :
    ((sh.mIsRotationIdentity = true ∨ H.IsUniformScale scale = true) →
      sh.IsValidScale H baseValid scale = sh.mInnerShape.isValidScale scale) ∧
    (sh.mIsRotationIdentity = false → H.IsUniformScale scale = false →
      H.CanScaleBeRotated sh.mRotation scale = false →
      sh.IsValidScale H baseValid scale = false) ∧
    (sh.mIsRotationIdentity = false → H.IsUniformScale scale = false →
      H.CanScaleBeRotated sh.mRotation scale = true →
      sh.IsValidScale H baseValid scale =
        sh.mInnerShape.isValidScale (H.RotateScale sh.mRotation scale)) := by
  refine ⟨?_, ?_, ?_⟩
  · rintro (h1 | h1) <;> simp [RotatedTranslatedShape.IsValidScale, hbase, h1]
  · intro h1 h2 h3
    simp [RotatedTranslatedShape.IsValidScale, hbase, h1, h2, h3]
  · intro h1 h2 h3
    simp [RotatedTranslatedShape.IsValidScale, hbase, h1, h2, h3]

/-- Witness for the amended C1: the rotatable row evaluated at the sample
shape (whose rotation flag is clear) and a non-uniform scale. -/
theorem RotatedTranslatedShape.isValidScale_decision_table_witness :
    (fun _ : Vec3 => true) (⟨1, 2, 3⟩ : Vec3) = true ∧
    RotatedTranslatedShape.IsValidScale sampleHelpers (fun _ => true) sampleShape ⟨1, 2, 3⟩ =
      sampleShape.mInnerShape.isValidScale
        (sampleHelpers.RotateScale sampleShape.mRotation ⟨1, 2, 3⟩) :=
  ⟨rfl,
   (RotatedTranslatedShape.isValidScale_decision_table sampleHelpers (fun _ => true)
      sampleShape ⟨1, 2, 3⟩ rfl).2.2 sampleQuat_not_close_identity rfl rfl⟩

/-- Claim C6: each dispatch bridge composes its operand's center-of-mass
transform with the decorator's rotation matrix on the right, substitutes the
inner shape for the decorator, adjusts only that operand's scale via the
decorator's scale-transform rule, leaves the other operand's arguments (and
the settings, filters, id creators and collector) unchanged, and re-invokes
the generic pairwise dispatcher. -/
theorem RotatedTranslatedShape.dispatch_bridges_spec (H : ScaleHelpers) :
    (∀ (Shape2 Result : Type)
      (dispatch : InnerShape → Shape2 → Vec3 → Vec3 → Mat44A → Mat44A → ℕ → ℕ → ℕ → ℕ → Result)
      (d : RotatedTranslatedShape) (s2 : Shape2) (sc1 sc2 : Vec3) (com1 com2 : Mat44A)
      (i1 i2 st cl : ℕ),
      RotatedTranslatedShape.sCollideRotatedTranslatedVsShape H dispatch d s2 sc1 sc2
          com1 com2 i1 i2 st cl =
        dispatch d.mInnerShape s2 (d.TransformScale H sc1) sc2
          (com1.mul (Mat44A.sRotation d.mRotation)) com2 i1 i2 st cl) ∧
    (∀ (Shape1 Result : Type)
      (dispatch : Shape1 → InnerShape → Vec3 → Vec3 → Mat44A → Mat44A → ℕ → ℕ → ℕ → ℕ → Result)
      (s1 : Shape1) (d : RotatedTranslatedShape) (sc1 sc2 : Vec3) (com1 com2 : Mat44A)
      (i1 i2 st cl : ℕ),
      RotatedTranslatedShape.sCollideShapeVsRotatedTranslated H dispatch s1 d sc1 sc2
          com1 com2 i1 i2 st cl =
        dispatch s1 d.mInnerShape sc1 (d.TransformScale H sc2)
          com1 (com2.mul (Mat44A.sRotation d.mRotation)) i1 i2 st cl) ∧
    (∀ (Shape2 Result : Type)
      (dispatch : ShapeCast InnerShape → ℕ → Shape2 → Vec3 → ℕ → Mat44A → ℕ → ℕ → ℕ → Result)
      (cast : ShapeCast RotatedTranslatedShape) (castSettings : ℕ) (s2 : Shape2)
      (sc2 : Vec3) (filter : ℕ) (com2 : Mat44A) (i1 i2 cl : ℕ),
      RotatedTranslatedShape.sCastRotatedTranslatedShapeVsShape H dispatch cast
          castSettings s2 sc2 filter com2 i1 i2 cl =
        dispatch
          ⟨cast.mShape.mInnerShape,
           cast.mShape.TransformScale H cast.mScale,
           cast.mCenterOfMassStart.mul (Mat44A.sRotation cast.mShape.mRotation),
           cast.mDirection⟩
          castSettings s2 sc2 filter com2 i1 i2 cl) := by
  refine ⟨?_, ?_, ?_⟩
  · intro Shape2 Result dispatch d s2 sc1 sc2 com1 com2 i1 i2 st cl
    rfl
  · intro Shape1 Result dispatch s1 d sc1 sc2 com1 com2 i1 i2 st cl
    rfl
  · intro Shape2 Result dispatch cast castSettings s2 sc2 filter com2 i1 i2 cl
    rfl

/-- Adding the zero vector is the identity. -/
theorem Vec3.add_zero (v : Vec3) : v + Vec3.zero = v := by
  show Vec3.add v Vec3.zero = v
  cases v with
  | mk a b c =>
    simp only [Vec3.add, Vec3.zero, Vec3.mk.injEq]
    refine ⟨?_, ?_, ?_⟩ <;> ring

/-- Rotating a vector by the identity quaternion is the identity. -/
theorem Quat.rotateVec_identity (v : Vec3) : Quat.sIdentity.rotateVec v = v := by
  cases v with
  | mk a b c =>
    simp only [Quat.rotateVec, Quat.mul, Quat.Conjugated, Quat.sIdentity, Vec3.mk.injEq]
    refine ⟨?_, ?_, ?_⟩ <;> ring

/-- Transforming a ray by the pure-rotation affine transform of a unit
quaternion rotates its origin and direction by the quaternion. -/
theorem RayCast.transformed_sRotation (q : Quat) (h : Quat.normSq q = 1) (r : RayCast) :
    r.Transformed (Mat44A.sRotation q) = ⟨q.rotateVec r.mOrigin, q.rotateVec r.mDirection⟩ := by
  simp only [RayCast.Transformed, Mat44A.sRotation]
  rw [Mat3.sRotation_mulVec q h, Mat3.sRotation_mulVec q h, Vec3.add_zero]

/-- Claim C7: for every sub-shape id and local surface position,
`GetSurfaceNormal` transforms the position by the inverse (conjugate)
rotation, delegates to the inner shape, and returns the inner shape's normal
transformed back by the rotation, given the rotation quaternion is
unit-length. -/
theorem RotatedTranslatedShape.getSurfaceNormal_spec (sh : RotatedTranslatedShape)
    (h : Quat.normSq sh.mRotation = 1) (inSubShapeID : ℕ) (pos : Vec3) :
    sh.GetSurfaceNormal inSubShapeID pos =
      sh.mRotation.rotateVec
        (sh.mInnerShape.getSurfaceNormal inSubShapeID (sh.mRotation.Conjugated.rotateVec pos)) := by
  have hconj : Quat.normSq sh.mRotation.Conjugated = 1 := by
    rw [Quat.normSq_conjugated]; exact h
  simp only [RotatedTranslatedShape.GetSurfaceNormal]
  rw [Mat3.sRotation_conjugated_transposed, Mat3.sRotation_mulVec sh.mRotation h,
    Mat3.sRotation_mulVec sh.mRotation.Conjugated hconj]

/-- Witness for C7: `RotatedTranslatedShape.getSurfaceNormal_spec` at the
sample shape, sub-shape id 0 and position `(1, 0, 0)`. -/
theorem RotatedTranslatedShape.getSurfaceNormal_spec_witness :
    Quat.normSq sampleShape.mRotation = 1 ∧
    sampleShape.GetSurfaceNormal 0 ⟨1, 0, 0⟩ =
      sampleShape.mRotation.rotateVec
        (sampleShape.mInnerShape.getSurfaceNormal 0
          (sampleShape.mRotation.Conjugated.rotateVec ⟨1, 0, 0⟩)) :=
  ⟨by norm_num [Quat.normSq, sampleShape, sampleQuat],
   RotatedTranslatedShape.getSurfaceNormal_spec sampleShape
     (by norm_num [Quat.normSq, sampleShape, sampleQuat]) 0 ⟨1, 0, 0⟩⟩

/-- Claim C8: both `CastRay` variants produce exactly the result of casting
the ray transformed by the inverse (conjugate) rotation directly against the
inner shape, with hit data passed back unmodified, given the rotation
quaternion is unit-length. -/
theorem RotatedTranslatedShape.castRay_spec (sh : RotatedTranslatedShape)
    (h : Quat.normSq sh.mRotation = 1) (inRay : RayCast)
    (inSubShapeIDCreator : ℕ) (ioHit : RayCastResult) (inRayCastSettings : ℕ) :
    sh.CastRay inRay inSubShapeIDCreator ioHit =
      sh.mInnerShape.castRay
        ⟨sh.mRotation.Conjugated.rotateVec inRay.mOrigin,
         sh.mRotation.Conjugated.rotateVec inRay.mDirection⟩
        inSubShapeIDCreator ioHit ∧
    sh.CastRayCollect inRay inRayCastSettings inSubShapeIDCreator =
      sh.mInnerShape.castRayCollect
        ⟨sh.mRotation.Conjugated.rotateVec inRay.mOrigin,
         sh.mRotation.Conjugated.rotateVec inRay.mDirection⟩
        inRayCastSettings inSubShapeIDCreator := by
  have hconj : Quat.normSq sh.mRotation.Conjugated = 1 := by
    rw [Quat.normSq_conjugated]; exact h
  constructor
  · simp only [RotatedTranslatedShape.CastRay]
    rw [RayCast.transformed_sRotation sh.mRotation.Conjugated hconj]
  · simp only [RotatedTranslatedShape.CastRayCollect]
    rw [RayCast.transformed_sRotation sh.mRotation.Conjugated hconj]

/-- Witness for C8: `RotatedTranslatedShape.castRay_spec` at the sample shape
and a concrete ray. -/
theorem RotatedTranslatedShape.castRay_spec_witness :
    Quat.normSq sampleShape.mRotation = 1 ∧
    (sampleShape.CastRay ⟨⟨1, 2, 3⟩, ⟨0, 0, 1⟩⟩ 0 ⟨1, 0⟩ =
      sampleShape.mInnerShape.castRay
        ⟨sampleShape.mRotation.Conjugated.rotateVec ⟨1, 2, 3⟩,
         sampleShape.mRotation.Conjugated.rotateVec ⟨0, 0, 1⟩⟩ 0 ⟨1, 0⟩ ∧
    sampleShape.CastRayCollect ⟨⟨1, 2, 3⟩, ⟨0, 0, 1⟩⟩ 7 0 =
      sampleShape.mInnerShape.castRayCollect
        ⟨sampleShape.mRotation.Conjugated.rotateVec ⟨1, 2, 3⟩,
         sampleShape.mRotation.Conjugated.rotateVec ⟨0, 0, 1⟩⟩ 7 0) :=
  ⟨by norm_num [Quat.normSq, sampleShape, sampleQuat],
   RotatedTranslatedShape.castRay_spec sampleShape
     (by norm_num [Quat.normSq, sampleShape, sampleQuat]) ⟨⟨1, 2, 3⟩, ⟨0, 0, 1⟩⟩ 0 ⟨1, 0⟩ 7⟩

/-- The general path of `IsValidScale` with the rotation applied explicitly
(no identity-rotation short-circuit). -/
def RotatedTranslatedShape.isValidScaleGeneralPath (H : ScaleHelpers)
    (baseValid : Vec3 → Bool) (rotation : Quat) (inner : InnerShape) (scale : Vec3) : Bool :=
  if !baseValid scale then false
  else if H.IsUniformScale scale then inner.isValidScale scale
  else if !H.CanScaleBeRotated rotation scale then false
  else inner.isValidScale (H.RotateScale rotation scale)

/-- The general path of `TransformScale` with the rotation applied explicitly
(no identity-rotation short-circuit). -/
def RotatedTranslatedShape.transformScaleGeneralPath (H : ScaleHelpers)
    (rotation : Quat) (scale : Vec3) : Vec3 :=
  if H.IsUniformScale scale then scale else H.RotateScale rotation scale

/-- Claim C9: the `mIsRotationIdentity` fast path never changes observable
output. For scale helpers under which the identity rotation rotates every
scale and leaves it unchanged, every instance whose flag is set returns, on
the two operations that branch on the flag (`IsValidScale` and
`TransformScale`), exactly the result of the general path applying the
identity rotation explicitly. -/
theorem RotatedTranslatedShape.identity_fast_path_spec (H : ScaleHelpers)
    (hCan : ∀ v, H.CanScaleBeRotated Quat.sIdentity v = true)
    (hRot : ∀ v, H.RotateScale Quat.sIdentity v = v)
    (baseValid : Vec3 → Bool) (sh : RotatedTranslatedShape)
    (hflag : sh.mIsRotationIdentity = true) (scale : Vec3) :
    sh.IsValidScale H baseValid scale =
      RotatedTranslatedShape.isValidScaleGeneralPath H baseValid Quat.sIdentity
        sh.mInnerShape scale ∧
    sh.TransformScale H scale =
      RotatedTranslatedShape.transformScaleGeneralPath H Quat.sIdentity scale := by
  constructor
  · unfold RotatedTranslatedShape.IsValidScale RotatedTranslatedShape.isValidScaleGeneralPath
    rw [hflag]
    by_cases hb : baseValid scale
    · simp [hb, hCan, hRot]
    · simp [hb]
  · unfold RotatedTranslatedShape.TransformScale RotatedTranslatedShape.transformScaleGeneralPath
    rw [hflag]
    simp [hRot]

/-- Witness for C9: `RotatedTranslatedShape.identity_fast_path_spec` at the
identity-rotation shape, the sample helpers and a non-uniform scale. -/
theorem RotatedTranslatedShape.identity_fast_path_spec_witness :
    identityShape.IsValidScale sampleHelpers (fun _ => true) ⟨1, 2, 3⟩ =
      RotatedTranslatedShape.isValidScaleGeneralPath sampleHelpers (fun _ => true)
        Quat.sIdentity identityShape.mInnerShape ⟨1, 2, 3⟩ ∧
    identityShape.TransformScale sampleHelpers ⟨1, 2, 3⟩ =
      RotatedTranslatedShape.transformScaleGeneralPath sampleHelpers Quat.sIdentity ⟨1, 2, 3⟩ :=
  RotatedTranslatedShape.identity_fast_path_spec sampleHelpers (fun _ => rfl)
    (fun v => Quat.rotateVec_identity v) (fun _ => true) identityShape
    Quat.isClose_identity_self ⟨1, 2, 3⟩

end JoltSpec
